import Mathlib

/-!
Verification development for the AI_THERAPIST_AGENT repository
(src/backend/ai_agent.py and src/backend/tools.py).

The Python source is shallowly embedded: every external collaborator
(ollama chat backend, the nominatim geocoding endpoint, the Twilio
telephony client) is passed in as an explicit environment parameter, and
every place where the Python code may observe an exception from a
collaborator is modelled with `Except Unit`.  Python `None` values and
absent dictionary keys / object attributes are modelled with `Option`.
-/

namespace AITherapist

/-- Last element of a list, with default `d` when the list is empty
(used to state the "later entries overwrite earlier ones" fold
characterisations). -/
def lastD {α : Type} : List α → α → α
  | [], d => d
  | a :: l, _ => lastD l a

/-- Last element of a list as an `Option`. -/
def last? {α : Type} (l : List α) : Option α :=
  lastD (l.map some) none

/-!
Section: parse_response (src/backend/ai_agent.py, lines 161-183).

A stream step is one dictionary emitted by `graph.stream`.  The code reads
the optional keys tools and agent and then the messages list of each; a
step where the key is absent, its value is falsy, or the messages entry
is absent / not a non-empty list contributes nothing, exactly like a
present empty list, so both levels are collapsed into one
`Option (List _)` (`none` = the step contributes no messages).
-/

/-- A message inside a tool-tagged step.  Here `name = none` models a
message object without a name attribute, for which getattr with default
"None" yields the sentinel string "None". -/
structure ToolMsg where
  name : Option String
deriving DecidableEq

/-- A message inside an agent-tagged step; `content` is the `content`
string, whose Python truthiness is emptiness of the string. -/
structure AgentMsg where
  content : String
deriving DecidableEq

/-- One step of the agent execution stream. -/
structure StreamStep where
  tools : Option (List ToolMsg)
  agent : Option (List AgentMsg)
deriving DecidableEq

/-- The body of the stream loop of `parse_response`, acting on the
accumulator `(tool_called_name, final_response)`. -/
def parse_step (acc : String × Option String) (s : StreamStep) : String × Option String :=
  let acc1 :=
    match s.tools with
    | none => acc
    | some msgs => (msgs.foldl (fun _ m => m.name.getD "None") acc.1, acc.2)
  match s.agent with
  | none => acc1
  | some msgs =>
    (acc1.1, msgs.foldl (fun r m => if m.content ≠ "" then some m.content else r) acc1.2)

/-- Embedding of `parse_response` from src/backend/ai_agent.py: fold of
`parse_step` over the stream starting from the pair ("None", None). -/
def parse_response (stream : List StreamStep) : String × Option String :=
  stream.foldl parse_step ("None", none)

/-- The tool names recorded by one step: for each tool message, its name
attribute when present, else the default sentinel "None". -/
def stepNames (s : StreamStep) : List String :=
  (s.tools.getD []).map (fun m => m.name.getD "None")

/-- The truthy (non-empty) agent message contents of one step. -/
def stepContents (s : StreamStep) : List String :=
  (s.agent.getD []).filterMap (fun m => if m.content ≠ "" then some m.content else none)

/-- All recorded tool names of a stream, in order. -/
def streamRecordedNames (stream : List StreamStep) : List String :=
  (stream.map stepNames).flatten

/-- All truthy agent message contents of a stream, in order. -/
def streamContents (stream : List StreamStep) : List String :=
  (stream.map stepContents).flatten

/-- The actual tool names present on tool messages of a stream (ignoring
messages that lack a `name` attribute). -/
def streamToolNames (stream : List StreamStep) : List String :=
  (stream.map (fun s => (s.tools.getD []).filterMap ToolMsg.name)).flatten

/-- The synthetic three-step stream of the spec:
(tool: "locate_therapist_tool", no content), (agent: "Here are some
options"), (agent: "Final answer"). -/
def demoStream : List StreamStep :=
  [⟨some [⟨some "locate_therapist_tool"⟩], none⟩,
   ⟨none, some [⟨"Here are some options"⟩]⟩,
   ⟨none, some [⟨"Final answer"⟩]⟩]

/-!
Section: query_medgemma (src/backend/tools.py, lines 7-45).

The ollama backend is modelled as an optional chat function over the
message list (`none` = the ollama import failed).  `Except.error ()`
covers any exception raised by `ollama.chat` or by indexing the message
content out of the response dictionary.  The fixed generation options
(`num_predict`, `temperature`, `top_p`) are constants of the call and are
not part of the observable behaviour modelled here.
-/

/-- The fixed Dr. Emily Hartman persona system prompt (content is not
load-bearing for any claim; kept as the constant the code sends). -/
def medgemmaSystemPrompt : String :=
  "You are Dr. Emily Hartman, a warm and experienced clinical psychologist. Respond to patients with emotional attunement, gentle normalization, practical guidance and strengths-focused support, and always keep the conversation going by asking open ended questions."

/-- The ordered (role, content) messages sent to the model. -/
def medgemmaMessages (prompt : String) : List (String × String) :=
  [("system", medgemmaSystemPrompt), ("user", prompt)]

/-- Fallback returned when `ollama` is not importable. -/
def medgemmaUnavailableMsg : String :=
  "I\x27m having technical difficulties: language model backend is unavailable right now. Please try again later."

/-- Fallback returned when the model call raises. -/
def medgemmaErrorMsg : String :=
  "I\x27m having technical difficulties, but I want you to know your feelings matter. Please try again shortly."

/-- The Python str.strip() applied to the model content: leading and
trailing whitespace removed (an executable equivalent of String.trim,
which does not reduce inside the kernel). -/
def pyStrip (s : String) : String :=
  String.mk
    (((s.data.dropWhile (fun c => c.isWhitespace)).reverse.dropWhile
      (fun c => c.isWhitespace)).reverse)

/-- Embedding of `query_medgemma` from src/backend/tools.py. -/
def query_medgemma (backend : Option (List (String × String) → Except Unit String))
    (prompt : String) : String :=
  match backend with
  | none => medgemmaUnavailableMsg
  | some chat =>
    match chat (medgemmaMessages prompt) with
    | Except.ok content => pyStrip content
    | Except.error _ => medgemmaErrorMsg

/-- A whitespace-only model backend, used to exercise the trimming path. -/
def whitespaceBackend : Option (List (String × String) → Except Unit String) :=
  some (fun _ => Except.ok "   ")

/-!
Section: call_emergency (src/backend/tools.py, lines 55-69) and the
dispatcher wrapper emergency_call_tool (src/backend/ai_agent.py).

The Twilio `Client` class is modelled as an optional constructor
(`none` = the import failed, so the module-level `Client` is `None`);
constructing the client and `client.calls.create` may each raise.  The
embedding additionally returns the number of `calls.create` invocations
performed, so that "at most one call is placed per invocation" is a
statement about the embedded code rather than an assumption.  The
configuration strings come from src/backend/config.py (not under src/)
and are opaque inputs here.
-/

/-- An opaque Twilio call record object. -/
structure CallRecord where
  id : Nat
deriving DecidableEq

/-- A constructed Twilio client: `create to from url` models
`client.calls.create(to=..., from_=..., url=...)`. -/
structure TwilioClient where
  create : String → String → String → Except Unit CallRecord

/-- The Twilio environment: `clientClass sid token` models
`Client(TWILIO_ACCOUNT_SID, TWILIO_AUTH_TOKEN)`. -/
structure TwilioEnv where
  clientClass : Option (String → String → Except Unit TwilioClient)

/-- The fixed voice-prompt URL passed to `calls.create`. -/
def twilioVoiceUrl : String := "http://demo.twilio.com/docs/voice.xml"

/-- Embedding of `call_emergency` from src/backend/tools.py, instrumented
with the number of `calls.create` invocations (second component). -/
def call_emergency (env : TwilioEnv)
    (sid token fromNumber emergencyContact : String) : Option CallRecord × Nat :=
  match env.clientClass with
  | none => (none, 0)
  | some mk =>
    match mk sid token with
    | Except.error _ => (none, 0)
    | Except.ok client =>
      match client.create emergencyContact fromNumber twilioVoiceUrl with
      | Except.error _ => (none, 1)
      | Except.ok call => (some call, 1)

/-- The failure modes of `call_emergency`: Twilio unavailable, the
constructor raises, or `calls.create` raises. -/
def callEmergencyFails (env : TwilioEnv)
    (sid token fromNumber emergencyContact : String) : Prop :=
  env.clientClass = none ∨
  ∃ mk, env.clientClass = some mk ∧
    (mk sid token = Except.error () ∨
     ∃ client, mk sid token = Except.ok client ∧
       client.create emergencyContact fromNumber twilioVoiceUrl = Except.error ())

/-- The dispatcher tool wrapper `emergency_call_tool` from
src/backend/ai_agent.py: its body is the bare statement
`call_emergency()`, so the call record is discarded and the Python
function implicitly returns `None` (modelled as `none`). -/
def emergency_call_tool (env : TwilioEnv)
    (sid token fromNumber emergencyContact : String) : Option CallRecord × Nat :=
  (none, (call_emergency env sid token fromNumber emergencyContact).2)

/-- A Twilio environment with no client class available. -/
def twilioEnvNone : TwilioEnv := ⟨none⟩

/-!
Section: locate_therapist_tool (src/backend/ai_agent.py, lines 56-137).

The geocoding endpoint is modelled as a function from the query string to
`Except Unit (Nat × List GeoResult)`: the `Nat` is the HTTP status code
and the list is the parsed JSON body.  `Except.error ()` models any
exception observed inside the try block (a raising `requests.get`, or a
raising `response.json()` on a 200 response); the whole operation is
wrapped in one try/except, so an error anywhere aborts the accumulation.
Absent dictionary keys are `none`.
-/

/-- The nominatim address sub-object; each field is an optional string
(absent key = `none`, which the code defaults to the empty string). -/
structure Address where
  house_number : Option String
  road : Option String
  city : Option String
  town : Option String
  village : Option String
  state : Option String
  postcode : Option String
deriving DecidableEq

/-- The address object with no keys, the default of the address lookup. -/
def emptyAddress : Address := ⟨none, none, none, none, none, none, none⟩

/-- One raw geocoding search result. -/
structure GeoResult where
  display_name : Option String
  address : Option Address
  lat : Option String
  lon : Option String
deriving DecidableEq

/-- The geocoding environment: one HTTP GET per query string. -/
def GeoEnv : Type := String → Except Unit (Nat × List GeoResult)

/-- The display name extracted from a raw result: the first
comma-delimited segment of the display string (everything before the
first comma), matching the split-and-take-first in the code. -/
def extractName (r : GeoResult) : String :=
  String.mk (((r.display_name.getD "").data).takeWhile (fun c => c ≠ ','))

/-- The composed address of one result, following the code: structured
parts (house number + road, else road; then city with town and village
as absent-key fallbacks; then state; then postcode) joined by ", ", and
the raw display string (default "Address not available") when no part
was collected. -/
def composedAddress (r : GeoResult) : String :=
  let ad := r.address.getD emptyAddress
  let house_number := ad.house_number.getD ""
  let road := ad.road.getD ""
  let city := ad.city.getD (ad.town.getD (ad.village.getD ""))
  let state := ad.state.getD ""
  let postcode := ad.postcode.getD ""
  let address_parts : List String := []
  let address_parts :=
    if house_number ≠ "" ∧ road ≠ "" then address_parts ++ [house_number ++ " " ++ road]
    else if road ≠ "" then address_parts ++ [road]
    else address_parts
  let address_parts := if city ≠ "" then address_parts ++ [city] else address_parts
  let address_parts := if state ≠ "" then address_parts ++ [state] else address_parts
  let address_parts := if postcode ≠ "" then address_parts ++ [postcode] else address_parts
  if address_parts = [] then r.display_name.getD "Address not available"
  else String.intercalate ", " address_parts

/-- Truthiness of both coordinate strings, as tested by the code. -/
def coordsPresent (r : GeoResult) : Bool :=
  decide (r.lat.getD "" ≠ "") && decide (r.lon.getD "" ≠ "")

/-- The formatted listing entry for one accepted result. -/
def formatEntry (r : GeoResult) (name : String) : String :=
  "**" ++ name ++ "**\n" ++
  "📍 Address: " ++ composedAddress r ++ "\n" ++
  "📞 Phone: Contact facility directly or search online directories\n" ++
  (if coordsPresent r then
    "🗺️ Coordinates: " ++ r.lat.getD "" ++ ", " ++ r.lon.getD "" ++ "\n"
  else "") ++
  "---"

/-- The inner result loop: accepts a result when its extracted name is
non-empty, unseen, and longer than 3 characters; stops as soon as 5
entries have been accumulated.  Entries are kept as (extracted name,
formatted text) pairs; the code keeps only the text, and only ever uses
the length of the list and the joined texts. -/
def processResults : List GeoResult → List (String × String) → List String →
    List (String × String) × List String
  | [], acc, seen => (acc, seen)
  | r :: rest, acc, seen =>
    let name := extractName r
    if name ≠ "" ∧ name ∉ seen ∧ name.length > 3 then
      let acc2 := acc ++ [(name, formatEntry r name)]
      let seen2 := name :: seen
      if acc2.length ≥ 5 then (acc2, seen2)
      else processResults rest acc2 seen2
    else processResults rest acc seen

/-- The state update of a single query: the results are processed only on
a 200 status; any other status leaves the accumulation untouched. -/
def queryStep (status : Nat) (results : List GeoResult)
    (acc : List (String × String)) (seen : List String) :
    List (String × String) × List String :=
  if status = 200 then processResults results acc seen else (acc, seen)

/-- The outer query loop: one GET per query, results processed only on a
200 status, early exit once 5 entries are accumulated, and any raised
exception aborting the whole accumulation. -/
def runQueriesAux (env : GeoEnv) :
    List String → List (String × String) → List String →
    Except Unit (List (String × String))
  | [], acc, _ => Except.ok acc
  | q :: qs, acc, seen =>
    match env q with
    | Except.error e => Except.error e
    | Except.ok (status, results) =>
      let s2 := queryStep status results acc seen
      if s2.1.length ≥ 5 then Except.ok s2.1
      else runQueriesAux env qs s2.1 s2.2

/-- The four search query variants for a location. -/
def searchQueries (location : String) : List String :=
  ["therapist " ++ location,
   "psychologist " ++ location,
   "mental health clinic " ++ location,
   "counseling center " ++ location]

/-- The accumulated (name, entry) pairs of one invocation. -/
def locateEntries (env : GeoEnv) (location : String) :
    Except Unit (List (String × String)) :=
  runQueriesAux env (searchQueries location) [] []

/-- Fixed message when no usable result was collected. -/
def locateNoResultsMsg (location : String) : String :=
  "I couldn\x27t find specific therapist listings near " ++ location ++
  " using OpenStreetMap. Please consider searching for local mental health directories or contacting your local health department for professional referrals."

/-- Fixed message when an exception was caught during the operation. -/
def locateErrorMsg (location : String) : String :=
  "I\x27m having trouble accessing location services right now. For immediate help, please contact your local mental health crisis hotline or search for therapists in " ++
  location ++ " through online directories."

/-- Header of a successful listing. -/
def locateHeader (location : String) : String :=
  "Here are mental health professionals and clinics I found near " ++ location ++ ":\n\n"

/-- Footer of a successful listing. -/
def locateFooter : String :=
  "\n\n💡 **Note**: Phone numbers aren\x27t available through public maps. I recommend:\n• Calling the facility directly using the address\n• Searching online directories like Psychology Today or Healthgrades\n• Contacting your local mental health association\n• Using Google Maps or Yelp for additional contact information"

/-- Embedding of `locate_therapist_tool` from src/backend/ai_agent.py. -/
def locate_therapist_tool (env : GeoEnv) (location : String) : String :=
  match locateEntries env location with
  | Except.error _ => locateErrorMsg location
  | Except.ok all_results =>
    if all_results ≠ [] then
      locateHeader location ++
        String.intercalate "\n\n" (all_results.map Prod.snd) ++ locateFooter
    else locateNoResultsMsg location

/-- The address-composition rule as the spec words it: house number plus
road when both are present, else road alone; then the first present of
city, town, village; then state; then postcode, joined by ", "; the raw
display string when no structured part was collected. -/
def composedAddressSpec (r : GeoResult) : String :=
  let ad := r.address.getD emptyAddress
  let hn := ad.house_number.getD ""
  let rd := ad.road.getD ""
  let cityLike := (ad.city.or (ad.town.or ad.village)).getD ""
  let st := ad.state.getD ""
  let pc := ad.postcode.getD ""
  let parts : List String :=
    (if hn ≠ "" ∧ rd ≠ "" then [hn ++ " " ++ rd] else if rd ≠ "" then [rd] else []) ++
    (if cityLike ≠ "" then [cityLike] else []) ++
    (if st ≠ "" then [st] else []) ++
    (if pc ≠ "" then [pc] else [])
  if parts = [] then r.display_name.getD "Address not available"
  else String.intercalate ", " parts

/-!
Concrete environments used to instantiate the universally quantified
theorems and to exhibit counterexamples.
-/

/-- A model backend whose chat call raises. -/
def errorBackend : Option (List (String × String) → Except Unit String) :=
  some (fun _ => Except.error ())

/-- A usable geocoding result with a full structured address. -/
def geoResultA : GeoResult :=
  ⟨some "Calm Mind Clinic, Baker Street, London",
   some ⟨some "12", some "Baker Street", some "London", none, none, none, some "NW1"⟩,
   some "51.52", some "-0.155"⟩

/-- A second raw result sharing the display name of `geoResultA`. -/
def geoResultB : GeoResult :=
  ⟨some "Calm Mind Clinic, Other Street, Leeds", none, none, none⟩

/-- A usable result served with a non-2xx status in `env500`. -/
def geoResultC : GeoResult :=
  ⟨some "Hope Counseling Group, Main Street", none, none, none⟩

/-- Geocoding responses where the first query returns two raw results
sharing one display name and the other queries return nothing. -/
def envDup : GeoEnv := fun q =>
  if q = "therapist Springfield" then Except.ok (200, [geoResultA, geoResultB])
  else Except.ok (200, [])

/-- The single (name, entry) pair `envDup` yields. -/
def dupEntries : List (String × String) :=
  [("Calm Mind Clinic", formatEntry geoResultA "Calm Mind Clinic")]

/-- Geocoding responses that succeed with an empty result list. -/
def envEmpty : GeoEnv := fun _ => Except.ok (200, [])

/-- Geocoding responses that raise on every request. -/
def envRaise : GeoEnv := fun _ => Except.error ()

/-- Geocoding responses where the first query variant comes back with
status 500 (carrying an otherwise usable result) and the second variant
succeeds with a usable result. -/
def env500 : GeoEnv := fun q =>
  if q = "therapist Springfield" then Except.ok (500, [geoResultC])
  else if q = "psychologist Springfield" then Except.ok (200, [geoResultA])
  else Except.ok (200, [])

/-- The same environment with the failing first request replaced by an
empty 200 response. -/
def env500ok : GeoEnv := fun q =>
  if q = "therapist Springfield" then Except.ok (200, [])
  else if q = "psychologist Springfield" then Except.ok (200, [geoResultA])
  else Except.ok (200, [])

end AITherapist

namespace AITherapist

theorem lastD_cons {α : Type} (a : α) (l : List α) (d : α) :
    lastD (a :: l) d = lastD l a := rfl

theorem lastD_append {α : Type} (l₁ l₂ : List α) (d : α) :
    lastD (l₁ ++ l₂) d = lastD l₂ (lastD l₁ d) := by
  induction l₁ generalizing d with
  | nil => rfl
  | cons a l ih => exact ih a

theorem foldl_overwrite {α β : Type} (f : α → β) (l : List α) (b : β) :
    l.foldl (fun _ x => f x) b = lastD (l.map f) b := by
  induction l generalizing b with
  | nil => rfl
  | cons a l ih => exact ih (f a)

theorem foldl_content (msgs : List AgentMsg) (r : Option String) :
    msgs.foldl (fun acc m => if m.content ≠ "" then some m.content else acc) r
      = lastD ((msgs.filterMap
          (fun m => if m.content ≠ "" then some m.content else none)).map some) r := by
  induction msgs generalizing r with
  | nil => rfl
  | cons m ms ih =>
    by_cases h : m.content ≠ ""
    · simp only [List.foldl_cons, List.filterMap_cons, if_pos h, List.map_cons, lastD_cons]
      exact ih (some m.content)
    · simp only [List.foldl_cons, List.filterMap_cons, if_neg h]
      exact ih r

theorem parse_step_eq (acc : String × Option String) (s : StreamStep) :
    parse_step acc s
      = (lastD (stepNames s) acc.1, lastD ((stepContents s).map some) acc.2) := by
  rcases acc with ⟨t, r⟩
  rcases s with ⟨ts, ag⟩
  cases ts with
  | none =>
    cases ag with
    | none => rfl
    | some ms =>
      show (t, ms.foldl (fun acc m => if m.content ≠ "" then some m.content else acc) r)
          = (t, lastD ((ms.filterMap
              (fun m => if m.content ≠ "" then some m.content else none)).map some) r)
      rw [foldl_content]
  | some msgs =>
    cases ag with
    | none =>
      show (msgs.foldl (fun _ m => m.name.getD "None") t, r)
          = (lastD (msgs.map (fun m => m.name.getD "None")) t, r)
      rw [foldl_overwrite]
    | some ms =>
      show (msgs.foldl (fun _ m => m.name.getD "None") t,
            ms.foldl (fun acc m => if m.content ≠ "" then some m.content else acc) r)
          = (lastD (msgs.map (fun m => m.name.getD "None")) t,
             lastD ((ms.filterMap
               (fun m => if m.content ≠ "" then some m.content else none)).map some) r)
      rw [foldl_overwrite, foldl_content]

theorem parse_foldl (stream : List StreamStep) :
    ∀ acc : String × Option String,
      stream.foldl parse_step acc
        = (lastD (streamRecordedNames stream) acc.1,
           lastD ((streamContents stream).map some) acc.2) := by
  induction stream with
  | nil => intro acc; rfl
  | cons s rest ih =>
    intro acc
    rw [List.foldl_cons, parse_step_eq, ih]
    simp [streamRecordedNames, streamContents, List.map_append, lastD_append]

/-- Fold characterisation of `parse_response`: the result is the last
recorded tool name (default "None") paired with the last truthy agent
content. -/
theorem parse_response_char (stream : List StreamStep) :
    parse_response stream
      = (lastD (streamRecordedNames stream) "None", last? (streamContents stream)) :=
  parse_foldl stream ("None", none)

theorem filterMap_name_of_all_named (l : List ToolMsg)
    (h : ∀ m ∈ l, m.name.isSome = true) :
    l.filterMap ToolMsg.name = l.map (fun m => m.name.getD "None") := by
  induction l with
  | nil => rfl
  | cons m ms ih =>
    have hm : m.name.isSome = true := h m (List.mem_cons_self m ms)
    cases hname : m.name with
    | none => rw [hname] at hm; simp at hm
    | some a =>
      simp only [List.filterMap_cons, hname, List.map_cons, Option.getD_some]
      rw [ih (fun x hx => h x (List.mem_cons_of_mem m hx))]

theorem recorded_eq_named (stream : List StreamStep)
    (h : ∀ s ∈ stream, ∀ m ∈ s.tools.getD [], m.name.isSome = true) :
    streamRecordedNames stream = streamToolNames stream := by
  induction stream with
  | nil => rfl
  | cons s rest ih =>
    have h1 := h s (List.mem_cons_self s rest)
    have h2 : ∀ x ∈ rest, ∀ m ∈ x.tools.getD [], m.name.isSome = true :=
      fun x hx => h x (List.mem_cons_of_mem s hx)
    show stepNames s ++ streamRecordedNames rest
        = (s.tools.getD []).filterMap ToolMsg.name ++ streamToolNames rest
    rw [ih h2, filterMap_name_of_all_named _ h1]
    rfl

theorem filterMap_content_nil (ms : List AgentMsg) (h : ∀ m ∈ ms, m.content = "") :
    ms.filterMap (fun m => if m.content ≠ "" then some m.content else none) = [] := by
  induction ms with
  | nil => rfl
  | cons m ms ih =>
    have hm := h m (List.mem_cons_self m ms)
    simp only [List.filterMap_cons, hm]
    exact ih (fun x hx => h x (List.mem_cons_of_mem m hx))

theorem streamContents_nil (stream : List StreamStep)
    (h : ∀ s ∈ stream, ∀ m ∈ s.agent.getD [], m.content = "") :
    streamContents stream = [] := by
  induction stream with
  | nil => rfl
  | cons s rest ih =>
    show stepContents s ++ streamContents rest = []
    rw [stepContents, filterMap_content_nil _ (h s (List.mem_cons_self s rest)),
      ih (fun x hx => h x (List.mem_cons_of_mem s hx))]
    rfl

theorem parse_step_agent_empty (acc : String × Option String) (msgs : List AgentMsg)
    (h : ∀ m ∈ msgs, m.content = "") :
    parse_step acc ⟨none, some msgs⟩ = acc := by
  show (acc.1, msgs.foldl (fun r m => if m.content ≠ "" then some m.content else r) acc.2)
      = acc
  rw [foldl_content, filterMap_content_nil msgs h]
  rfl

/-- C1: `parse_response` is a fold over the ordered stream: whenever every
tool message carries a name attribute, it returns the pair (last tool name
seen across all tool-tagged steps, defaulting to the sentinel "None" when
none occurs, last truthy agent-message content, as an `Option`); and on
the synthetic three-step stream — (tool: "locate_therapist_tool", no
content), (agent: "Here are some options"), (agent: "Final answer") — it
returns ("locate_therapist_tool", "Final answer"). -/
theorem claim_c1 :
    (∀ stream : List StreamStep,
        (∀ s ∈ stream, ∀ m ∈ s.tools.getD [], m.name.isSome = true) →
        parse_response stream
          = (lastD (streamToolNames stream) "None", last? (streamContents stream))) ∧
    parse_response demoStream = ("locate_therapist_tool", some "Final answer") := by
  constructor
  · intro stream h
    rw [parse_response_char, recorded_eq_named stream h]
  · rfl

/-- Witness for C1 at the synthetic three-step stream. -/
theorem claim_c1_witness :
    parse_response demoStream
      = (lastD (streamToolNames demoStream) "None", last? (streamContents demoStream)) :=
  claim_c1.1 demoStream (by decide)

/-- C8: there is a stream containing a tool-tagged step on which
`parse_response` still reports the sentinel "None": a tool message
without a name attribute arriving after a named one resets the recorded
name to "None". -/
theorem claim_c8 :
    (∃ s ∈ [(⟨some [⟨some "locate_therapist_tool"⟩, ⟨none⟩], none⟩ : StreamStep)],
        s.tools.isSome = true) ∧
    (parse_response [⟨some [⟨some "locate_therapist_tool"⟩, ⟨none⟩], none⟩]).1 = "None" := by
  decide

/-- C9: when no agent message of the stream has truthy content (in
particular when all agent contents are the empty string),
`parse_response` reports `none` as the final response; and appending an
agent step whose messages all have empty content never overwrites the
previously recorded final response. -/
theorem claim_c9 :
    (∀ stream : List StreamStep,
        (∀ s ∈ stream, ∀ m ∈ s.agent.getD [], m.content = "") →
        (parse_response stream).2 = none) ∧
    (∀ (stream : List StreamStep) (msgs : List AgentMsg),
        (∀ m ∈ msgs, m.content = "") →
        (parse_response (stream ++ [⟨none, some msgs⟩])).2 = (parse_response stream).2) := by
  constructor
  · intro stream h
    rw [parse_response_char, streamContents_nil stream h]
    rfl
  · intro stream msgs h
    show (List.foldl parse_step ("None", none) (stream ++ [⟨none, some msgs⟩])).2 = _
    rw [List.foldl_append, List.foldl_cons, List.foldl_nil, parse_step_agent_empty _ msgs h]
    rfl

/-- Witness for C9: a stream holding one empty-content agent message. -/
theorem claim_c9_witness :
    (parse_response [(⟨none, some [⟨""⟩]⟩ : StreamStep)]).2 = none ∧
    (parse_response ([(⟨none, some [⟨""⟩]⟩ : StreamStep)] ++ [⟨none, some [⟨""⟩]⟩])).2
      = (parse_response [(⟨none, some [⟨""⟩]⟩ : StreamStep)]).2 :=
  ⟨claim_c9.1 [⟨none, some [⟨""⟩]⟩] (by decide),
   claim_c9.2 [⟨none, some [⟨""⟩]⟩] [⟨""⟩] (by decide)⟩

theorem processResults_inv (rs : List GeoResult) :
    ∀ (acc : List (String × String)) (seen : List String),
      acc.length ≤ 4 → (acc.map Prod.fst).Nodup →
      (∀ p ∈ acc, p.1 ∈ seen) → (∀ p ∈ acc, 4 ≤ p.1.length) →
      (processResults rs acc seen).1.length ≤ 5 ∧
      ((processResults rs acc seen).1.map Prod.fst).Nodup ∧
      (∀ p ∈ (processResults rs acc seen).1, p.1 ∈ (processResults rs acc seen).2) ∧
      (∀ p ∈ (processResults rs acc seen).1, 4 ≤ p.1.length) := by
  induction rs with
  | nil =>
    intro acc seen h1 h2 h3 h4
    exact ⟨Nat.le_succ_of_le h1, h2, h3, h4⟩
  | cons r rest ih =>
    intro acc seen h1 h2 h3 h4
    by_cases hc : extractName r ≠ "" ∧ extractName r ∉ seen ∧ (extractName r).length > 3
    · have hnotin : extractName r ∉ acc.map Prod.fst := by
        intro hmem
        rcases List.mem_map.mp hmem with ⟨p, hp, hpe⟩
        exact hc.2.1 (hpe ▸ h3 p hp)
      have hnd2 : ((acc ++ [(extractName r, formatEntry r (extractName r))]).map
          Prod.fst).Nodup := by
        rw [List.map_append, List.nodup_append]
        exact ⟨h2, List.nodup_singleton _, by
          simpa [List.disjoint_singleton] using hnotin⟩
      have hsub2 : ∀ p ∈ acc ++ [(extractName r, formatEntry r (extractName r))],
          p.1 ∈ extractName r :: seen := by
        intro p hp
        rcases List.mem_append.mp hp with hmem | hmem
        · exact List.mem_cons_of_mem _ (h3 p hmem)
        · rw [List.mem_singleton.mp hmem]
          exact List.mem_cons_self _ _
      have hgood2 : ∀ p ∈ acc ++ [(extractName r, formatEntry r (extractName r))],
          4 ≤ p.1.length := by
        intro p hp
        rcases List.mem_append.mp hp with hmem | hmem
        · exact h4 p hmem
        · rw [List.mem_singleton.mp hmem]
          exact hc.2.2
      simp only [processResults, if_pos hc]
      by_cases h5 : (acc ++ [(extractName r, formatEntry r (extractName r))]).length ≥ 5
      · simp only [if_pos h5]
        refine ⟨?_, hnd2, hsub2, hgood2⟩
        simp only [List.length_append, List.length_singleton]
        omega
      · simp only [if_neg h5]
        refine ih _ _ ?_ hnd2 hsub2 hgood2
        simp only [List.length_append, List.length_singleton] at h5 ⊢
        omega
    · simp only [processResults, if_neg hc]
      exact ih _ _ h1 h2 h3 h4

theorem queryStep_inv (status : Nat) (results : List GeoResult)
    (acc : List (String × String)) (seen : List String)
    (h1 : acc.length ≤ 4) (h2 : (acc.map Prod.fst).Nodup)
    (h3 : ∀ p ∈ acc, p.1 ∈ seen) (h4 : ∀ p ∈ acc, 4 ≤ p.1.length) :
    (queryStep status results acc seen).1.length ≤ 5 ∧
    ((queryStep status results acc seen).1.map Prod.fst).Nodup ∧
    (∀ p ∈ (queryStep status results acc seen).1,
      p.1 ∈ (queryStep status results acc seen).2) ∧
    (∀ p ∈ (queryStep status results acc seen).1, 4 ≤ p.1.length) := by
  by_cases hs : status = 200
  · simp only [queryStep, if_pos hs]
    exact processResults_inv results acc seen h1 h2 h3 h4
  · simp only [queryStep, if_neg hs]
    exact ⟨Nat.le_succ_of_le h1, h2, h3, h4⟩

theorem runQueriesAux_nil (env : GeoEnv) (acc : List (String × String))
    (seen : List String) : runQueriesAux env [] acc seen = Except.ok acc := rfl

theorem runQueriesAux_cons_error (env : GeoEnv) (q : String) (qs : List String)
    (acc : List (String × String)) (seen : List String)
    (h : env q = Except.error ()) :
    runQueriesAux env (q :: qs) acc seen = Except.error () := by
  simp only [runQueriesAux, h]

theorem runQueriesAux_cons_ok (env : GeoEnv) (q : String) (qs : List String)
    (acc : List (String × String)) (seen : List String)
    (status : Nat) (results : List GeoResult)
    (h : env q = Except.ok (status, results)) :
    runQueriesAux env (q :: qs) acc seen =
      if (queryStep status results acc seen).1.length ≥ 5
      then Except.ok (queryStep status results acc seen).1
      else runQueriesAux env qs (queryStep status results acc seen).1
             (queryStep status results acc seen).2 := by
  simp only [runQueriesAux, h]

theorem runQueriesAux_inv (env : GeoEnv) (qs : List String) :
    ∀ (acc : List (String × String)) (seen : List String),
      acc.length ≤ 4 → (acc.map Prod.fst).Nodup →
      (∀ p ∈ acc, p.1 ∈ seen) → (∀ p ∈ acc, 4 ≤ p.1.length) →
      ∀ out, runQueriesAux env qs acc seen = Except.ok out →
        out.length ≤ 5 ∧ (out.map Prod.fst).Nodup ∧ ∀ p ∈ out, 4 ≤ p.1.length := by
  induction qs with
  | nil =>
    intro acc seen h1 h2 h3 h4 out hout
    rw [runQueriesAux_nil] at hout
    cases hout
    exact ⟨Nat.le_succ_of_le h1, h2, h4⟩
  | cons q qs ih =>
    intro acc seen h1 h2 h3 h4 out hout
    cases hq : env q with
    | error e =>
      cases e
      rw [runQueriesAux_cons_error env q qs acc seen hq] at hout
      cases hout
    | ok p =>
      rcases p with ⟨status, results⟩
      rw [runQueriesAux_cons_ok env q qs acc seen status results hq] at hout
      have hinv := queryStep_inv status results acc seen h1 h2 h3 h4
      by_cases h5 : (queryStep status results acc seen).1.length ≥ 5
      · rw [if_pos h5] at hout
        cases hout
        exact ⟨hinv.1, hinv.2.1, hinv.2.2.2⟩
      · rw [if_neg h5] at hout
        exact ih _ _ (by omega) hinv.2.1 hinv.2.2.1 hinv.2.2.2 out hout

/-- C2: every successful run of the location tool accumulates at most 5
entries, the entries are pairwise unique by extracted display name
(case-sensitive), and every entry has an extracted display name of at
least 4 characters. -/
theorem claim_c2 :
    ∀ (env : GeoEnv) (location : String) (entries : List (String × String)),
      locateEntries env location = Except.ok entries →
      entries.length ≤ 5 ∧ (entries.map Prod.fst).Nodup ∧
        ∀ p ∈ entries, 4 ≤ p.1.length :=
  fun env location entries h =>
    runQueriesAux_inv env (searchQueries location) [] []
      (Nat.zero_le 4) List.nodup_nil
      (fun p hp => absurd hp (List.not_mem_nil p))
      (fun p hp => absurd hp (List.not_mem_nil p)) entries h

/-- Witness for C2: two raw results sharing one display name yield a
single entry (the dedup instance of the spec), and the theorem applies. -/
theorem claim_c2_witness :
    locateEntries envDup "Springfield" = Except.ok dupEntries ∧
    dupEntries.length ≤ 5 ∧ (dupEntries.map Prod.fst).Nodup ∧
    (∀ p ∈ dupEntries, 4 ≤ p.1.length) ∧ dupEntries.length = 1 := by
  have h : locateEntries envDup "Springfield" = Except.ok dupEntries := rfl
  have hc := claim_c2 envDup "Springfield" dupEntries h
  exact ⟨h, hc.1, hc.2.1, hc.2.2, rfl⟩

theorem take2_ne_of_data (s t : String) (h : s.data.take 2 ≠ t.data.take 2) :
    s ≠ t :=
  fun he => h (congrArg (fun u : String => u.data.take 2) he)

theorem take2_append3 (a b x : String) (ha : 2 ≤ a.data.length) :
    ((a ++ x) ++ b).data.take 2 = a.data.take 2 := by
  rw [String.data_append, String.data_append, List.append_assoc]
  exact List.take_append_of_le_length ha

set_option maxRecDepth 4000 in
theorem noResults_ne_error (location : String) :
    locateNoResultsMsg location ≠ locateErrorMsg location := by
  apply take2_ne_of_data
  have e1 := take2_append3 "I couldn\x27t find specific therapist listings near "
    " using OpenStreetMap. Please consider searching for local mental health directories or contacting your local health department for professional referrals."
    location (by decide)
  have e2 := take2_append3 "I\x27m having trouble accessing location services right now. For immediate help, please contact your local mental health crisis hotline or search for therapists in "
    " through online directories." location (by decide)
  unfold locateNoResultsMsg locateErrorMsg
  rw [e1, e2]
  decide

/-- C4: the location tool never raises, distinguishes no-results from
failure, and names the location in both messages: a run yielding zero
usable entries (without an exception) returns exactly the fixed
no-results message, a raised exception returns the fixed
location-services-unavailable message, and the two fixed messages
differ. -/
theorem claim_c4 :
    ∀ (env : GeoEnv) (location : String),
      (locateEntries env location = Except.error () →
        locate_therapist_tool env location = locateErrorMsg location) ∧
      (locateEntries env location = Except.ok [] →
        locate_therapist_tool env location = locateNoResultsMsg location) ∧
      locateNoResultsMsg location ≠ locateErrorMsg location ∧
      (∃ a b : String, locateNoResultsMsg location = a ++ location ++ b) ∧
      (∃ a b : String, locateErrorMsg location = a ++ location ++ b) := by
  intro env location
  refine ⟨?_, ?_, noResults_ne_error location, ⟨_, _, rfl⟩, ⟨_, _, rfl⟩⟩
  · intro h
    simp only [locate_therapist_tool, h]
  · intro h
    simp only [locate_therapist_tool, h]
    simp

/-- Witness for C4: an all-raising environment hits the failure message,
an all-empty environment hits the no-results message, and they differ. -/
theorem claim_c4_witness :
    locate_therapist_tool envRaise "Springfield" = locateErrorMsg "Springfield" ∧
    locate_therapist_tool envEmpty "Springfield" = locateNoResultsMsg "Springfield" ∧
    locateNoResultsMsg "Springfield" ≠ locateErrorMsg "Springfield" :=
  ⟨(claim_c4 envRaise "Springfield").1 rfl,
   (claim_c4 envEmpty "Springfield").2.1 rfl,
   (claim_c4 envEmpty "Springfield").2.2.1⟩

/-- Counterexample to C5: a request answered with status 500 is not
converted into any fixed failure message — the environment below returns
a non-2xx response (with result data) for the first query variant, yet
the tool answers with a normal listing, neither the
location-services-unavailable message nor the no-results message, and
behaves exactly as if the failing request had returned an empty 200
response. -/
theorem claim_c5_counterexample :
    env500 "therapist Springfield" = Except.ok (500, [geoResultC]) ∧
    locate_therapist_tool env500 "Springfield" ≠ locateErrorMsg "Springfield" ∧
    locate_therapist_tool env500 "Springfield" ≠ locateNoResultsMsg "Springfield" ∧
    locate_therapist_tool env500 "Springfield"
      = locate_therapist_tool env500ok "Springfield" := by
  refine ⟨rfl, ?_, ?_, rfl⟩
  · decide
  · decide

/-- C5(amended): a non-2xx response to a search request is not treated as
a failure at the point of the call: it raises nothing, contributes no
entries, and the loop continues with the remaining query variants exactly
as if the request had not been made. -/
theorem claim_c5_amended :
    ∀ (env : GeoEnv) (q : String) (qs : List String)
      (acc : List (String × String)) (seen : List String)
      (status : Nat) (results : List GeoResult),
      env q = Except.ok (status, results) → status ≠ 200 → acc.length < 5 →
      runQueriesAux env (q :: qs) acc seen = runQueriesAux env qs acc seen := by
  intro env q qs acc seen status results h hs h5
  rw [runQueriesAux_cons_ok env q qs acc seen status results h]
  simp only [queryStep, if_neg hs]
  rw [if_neg (by omega)]

/-- Witness for C5(amended) at the 500-status environment. -/
theorem claim_c5_witness :
    runQueriesAux env500 ["therapist Springfield", "psychologist Springfield"] [] []
      = runQueriesAux env500 ["psychologist Springfield"] [] [] :=
  claim_c5_amended env500 "therapist Springfield" ["psychologist Springfield"]
    [] [] 500 [geoResultC] rfl (by decide) (by decide)

theorem getD_chain_eq_or (a b c : Option String) :
    a.getD (b.getD (c.getD "")) = (a.or (b.or c)).getD "" := by
  cases a <;> cases b <;> cases c <;> rfl

/-- C7: the composed address of each accepted result follows the spec
preference order (house number + road when both present, else road; then
the first present of city, town, village; then state; then postcode,
joined by ", "; raw display string as fallback), and a coordinates line
is included exactly when both latitude and longitude are present and
non-empty. -/
theorem claim_c7 :
    ∀ r : GeoResult,
      composedAddress r = composedAddressSpec r ∧
      (coordsPresent r = true ↔
        (∃ s, r.lat = some s ∧ s ≠ "") ∧ ∃ t, r.lon = some t ∧ t ≠ "") := by
  intro r
  constructor
  · rcases r with ⟨dn, ado, lat, lon⟩
    simp only [composedAddress, composedAddressSpec]
    rw [getD_chain_eq_or]
    split_ifs <;> simp_all
  · rcases r with ⟨dn, ado, lat, lon⟩
    cases lat <;> cases lon <;> simp [coordsPresent]

/-- Counterexample to C3: the model content can trim to the empty string,
so the tool does not return a non-empty string for every query. -/
theorem claim_c3_counterexample :
    query_medgemma whitespaceBackend "hello" = "" := rfl

/-- C3(amended): `query_medgemma` is total over the modelled backend:
with the backend absent it returns exactly the fixed backend-unavailable
apology (no model call exists to attempt); with a raising model call it
returns the fixed runtime apology; otherwise it returns the model content
trimmed — non-empty except when that content trims to nothing — and both
fixed apologies are non-empty. -/
theorem claim_c3_amended :
    ∀ (backend : Option (List (String × String) → Except Unit String))
      (prompt : String),
      (backend = none → query_medgemma backend prompt = medgemmaUnavailableMsg) ∧
      (∀ chat, backend = some chat →
        chat (medgemmaMessages prompt) = Except.error () →
        query_medgemma backend prompt = medgemmaErrorMsg) ∧
      (∀ chat content, backend = some chat →
        chat (medgemmaMessages prompt) = Except.ok content →
        query_medgemma backend prompt = pyStrip content) ∧
      medgemmaUnavailableMsg ≠ "" ∧ medgemmaErrorMsg ≠ "" := by
  intro backend prompt
  refine ⟨?_, ?_, ?_, by decide, by decide⟩
  · intro h
    rw [h]
    rfl
  · intro chat hb hc
    rw [hb]
    simp only [query_medgemma, hc]
  · intro chat content hb hc
    rw [hb]
    simp only [query_medgemma, hc]

/-- Witness for C3(amended) on the three concrete backends. -/
theorem claim_c3_witness :
    query_medgemma none "hi" = medgemmaUnavailableMsg ∧
    query_medgemma errorBackend "hi" = medgemmaErrorMsg ∧
    query_medgemma whitespaceBackend "hi" = pyStrip "   " :=
  ⟨(claim_c3_amended none "hi").1 rfl,
   (claim_c3_amended errorBackend "hi").2.1 (fun _ => Except.error ()) rfl rfl,
   (claim_c3_amended whitespaceBackend "hi").2.2.1 (fun _ => Except.ok "   ")
     "   " rfl rfl⟩

/-- C6: `call_emergency` performs at most one `calls.create` invocation
(never retries), and on any failure mode — Twilio client unavailable, the
client constructor raising, or call creation raising — it returns the
absent value without raising. -/
theorem claim_c6 :
    ∀ (env : TwilioEnv) (sid token fromNumber emergencyContact : String),
      (call_emergency env sid token fromNumber emergencyContact).2 ≤ 1 ∧
      (callEmergencyFails env sid token fromNumber emergencyContact →
        (call_emergency env sid token fromNumber emergencyContact).1 = none) := by
  intro env sid token fromNumber emergencyContact
  rcases env with ⟨cc⟩
  cases cc with
  | none => exact ⟨Nat.zero_le 1, fun _ => rfl⟩
  | some mk =>
    cases hmk : mk sid token with
    | error e =>
      constructor
      · simp [call_emergency, hmk]
      · intro _
        simp [call_emergency, hmk]
    | ok client =>
      cases hcr : client.create emergencyContact fromNumber twilioVoiceUrl with
      | error e =>
        constructor
        · simp [call_emergency, hmk, hcr]
        · intro _
          simp [call_emergency, hmk, hcr]
      | ok call =>
        constructor
        · simp [call_emergency, hmk, hcr]
        · intro hf
          rcases hf with h | ⟨mk2, hmk2, hrest⟩
          · exact absurd h (by simp)
          · injection hmk2 with he
            subst he
            rcases hrest with herr | ⟨client2, hok, hcreate⟩
            · rw [hmk] at herr
              cases herr
            · rw [hmk] at hok
              injection hok with he2
              subst he2
              rw [hcr] at hcreate
              cases hcreate

/-- Witness for C6 at the environment with no Twilio client. -/
theorem claim_c6_witness :
    (call_emergency twilioEnvNone "sid" "token" "111" "999").2 ≤ 1 ∧
    (call_emergency twilioEnvNone "sid" "token" "111" "999").1 = none :=
  ⟨(claim_c6 twilioEnvNone "sid" "token" "111" "999").1,
   (claim_c6 twilioEnvNone "sid" "token" "111" "999").2 (Or.inl rfl)⟩

/-- C10: the dispatcher wrapper `emergency_call_tool` always returns the
absent value, on success and on failure alike — its result does not
depend on the Twilio environment, so the agent loop cannot distinguish a
placed call from a failed one — while the underlying `call_emergency`
attempt is still performed. -/
theorem claim_c10 :
    ∀ (env env2 : TwilioEnv) (sid token fromNumber emergencyContact : String),
      (emergency_call_tool env sid token fromNumber emergencyContact).1 = none ∧
      (emergency_call_tool env sid token fromNumber emergencyContact).1
        = (emergency_call_tool env2 sid token fromNumber emergencyContact).1 ∧
      (emergency_call_tool env sid token fromNumber emergencyContact).2
        = (call_emergency env sid token fromNumber emergencyContact).2 :=
  fun _ _ _ _ _ _ => ⟨rfl, rfl, rfl⟩

end AITherapist
